import Mathlib

/-!
Shallow embedding of the flight-search bot (`src/main.rs`) together with
proofs about its delivery retry protocol, its deduplication guard, its
polling-cycle statistics and its error handling.

Network effects are modelled by scripting: every embedded function takes
the sequence of backend responses it would observe as an explicit argument
and returns, besides its result, the observable trace (HTTP attempts made,
backoff waits slept, whether the post-success cooldown ran).  JSON values
are modelled by an inductive type; the result of a serde parse of an
opaque response body is scripted alongside the body text.
-/

/-- JSON values, modelling serde_json::Value.  Numbers are rationals,
which covers both the integral and the fractional (f64-readable) JSON
numbers the program reads (prices, message ids, retry_after seconds). -/
inductive JsonValue where
  | null
  | bool (b : Bool)
  | num (q : ℚ)
  | str (s : String)
  | arr (elems : List JsonValue)
  | obj (fields : List (String × JsonValue))

/-- Field lookup on a JSON value, modelling serde_json::Value::get on an
object (first binding of the key). -/
def JsonValue.get (j : JsonValue) (key : String) : Option JsonValue :=
  match j with
  | .obj fields => (fields.find? (fun p => p.1 == key)).map (fun p => p.2)
  | _ => none

/-- Value::as_f64: any JSON number reads as a float. -/
def JsonValue.asF64 (j : JsonValue) : Option ℚ :=
  match j with
  | .num q => some q
  | _ => none

/-- Value::as_i64: only integral JSON numbers read as i64. -/
def JsonValue.asI64 (j : JsonValue) : Option Int :=
  match j with
  | .num q => if q.den = 1 then some q.num else none
  | _ => none

/-- Value::as_str. -/
def JsonValue.asStr (j : JsonValue) : Option String :=
  match j with
  | .str s => some s
  | _ => none

/-- Decidable equality for scripted call results. -/
instance (ε α : Type) [DecidableEq ε] [DecidableEq α] : DecidableEq (Except ε α) :=
  fun x y =>
    match x, y with
    | .error e1, .error e2 =>
        if h : e1 = e2 then .isTrue (by rw [h]) else .isFalse (by intro hc; cases hc; exact h rfl)
    | .ok a1, .ok a2 =>
        if h : a1 = a2 then .isTrue (by rw [h]) else .isFalse (by intro hc; cases hc; exact h rfl)
    | .error _, .ok _ => .isFalse (by intro hc; cases hc)
    | .ok _, .error _ => .isFalse (by intro hc; cases hc)

/-- max_retries in send_telegram_notification, update_telegram_message and
send_telegram_notification_with_id (src/main.rs lines 235, 673, 758). -/
def max_retries : Nat := 5

/-- initial_delay, in seconds, in the same three functions (src/main.rs
lines 236, 674, 759). -/
def initial_delay : Nat := 1

/-- reqwest StatusCode::is_success: the 2xx range. -/
def statusIsSuccess (status : Nat) : Bool := 200 ≤ status && status ≤ 299

/-- One scripted response of the messaging backend to one HTTP attempt:
either a connection-level failure (the reqwest error propagated by the
trailing question-mark operator) or a response carrying a status code, its
body text, and the result of serde-parsing that body. -/
inductive TgResponse where
  | transportErr (e : String)
  | resp (status : Nat) (text : String) (bodyParse : Except String JsonValue)

/-- error_json.get("parameters").and_then(get "retry_after").and_then(as_f64)
applied to the parse result of a 429 body (src/main.rs lines 262-265): the
backend-suggested wait in (possibly fractional) seconds, when present. -/
def bodyRetryAfter (parsed : Option JsonValue) : Option ℚ :=
  parsed.bind (fun error_json =>
    ((error_json.get "parameters").bind (fun p => p.get "retry_after")).bind JsonValue.asF64)

/-- initial_delay * 2_u64.pow(retry_count) (src/main.rs lines 268, 273):
the exponential fallback, with u64 wrap-around semantics. -/
def fallbackBackoff (retry_count : Nat) : Nat :=
  (initial_delay * 2 ^ retry_count) % 2 ^ 64

/-- The wait chosen before a retry (src/main.rs lines 262-275): the body's
parameters.retry_after when the body parses and carries one, otherwise the
exponential fallback (also taken when the body does not parse as JSON). -/
def extractRetryAfter (parsed : Option JsonValue) (retry_count : Nat) : ℚ :=
  match bodyRetryAfter parsed with
  | some retry_after => retry_after
  | none => (fallbackBackoff retry_count : ℚ)

/-- Observable trace of one delivery call: how many HTTP attempts were
issued, the backoff waits slept (in order, in seconds), whether the 1 s
post-success cooldown ran, and the returned result. -/
structure DeliveryTrace where
  attempts : Nat
  sleeps : List ℚ
  cooldownApplied : Bool
  outcome : Except String Unit
deriving DecidableEq

/-- The retry loop shared verbatim by send_telegram_notification
(src/main.rs 238-289) and update_telegram_message (676-726), run against a
script of responses: a 2xx returns Ok after the 1-second cooldown; a 429
increments the retry counter, fails once the counter exceeds max_retries,
and otherwise sleeps the extracted wait and retries; any other status
fails immediately with the body text. -/
def telegramDeliveryLoop : List TgResponse → Nat → DeliveryTrace
  | [], _ =>
      { attempts := 0, sleeps := [], cooldownApplied := false, outcome := .error "no response" }
  | .transportErr e :: _, _ =>
      { attempts := 1, sleeps := [], cooldownApplied := false, outcome := .error e }
  | .resp status text bodyParse :: rest, retry_count =>
      if statusIsSuccess status then
        { attempts := 1, sleeps := [], cooldownApplied := true, outcome := .ok () }
      else if status = 429 then
        let retry_count := retry_count + 1
        if max_retries < retry_count then
          { attempts := 1, sleeps := [], cooldownApplied := false,
            outcome := .error ("Exceeded maximum retries for Telegram API. Last error: " ++ text) }
        else
          let wait_time := extractRetryAfter bodyParse.toOption retry_count
          let t := telegramDeliveryLoop rest retry_count
          { t with attempts := t.attempts + 1, sleeps := wait_time :: t.sleeps }
      else
        { attempts := 1, sleeps := [], cooldownApplied := false,
          outcome := .error ("Telegram API request failed: " ++ text) }

/-- send_telegram_notification (and likewise update_telegram_message),
entered with retry_count = 0. -/
def sendTelegramNotification (responses : List TgResponse) : DeliveryTrace :=
  telegramDeliveryLoop responses 0

/-- Observable trace of one send-and-capture-id call. -/
structure WithIdTrace where
  attempts : Nat
  sleeps : List ℚ
  cooldownApplied : Bool
  outcome : Except String String
deriving DecidableEq

/-- send_telegram_notification_with_id (src/main.rs 761-818): the same
retry loop, except that a 2xx body is itself parsed and
result.message_id extracted before the cooldown; a body-parse failure or a
missing id returns an error and skips the cooldown. -/
def sendWithIdLoop : List TgResponse → Nat → WithIdTrace
  | [], _ =>
      { attempts := 0, sleeps := [], cooldownApplied := false, outcome := .error "no response" }
  | .transportErr e :: _, _ =>
      { attempts := 1, sleeps := [], cooldownApplied := false, outcome := .error e }
  | .resp status text bodyParse :: rest, retry_count =>
      if statusIsSuccess status then
        match bodyParse with
        | .error e =>
            { attempts := 1, sleeps := [], cooldownApplied := false, outcome := .error e }
        | .ok response_json =>
          match ((response_json.get "result").bind (fun result => result.get "message_id")).bind
              JsonValue.asI64 with
          | some message_id =>
              { attempts := 1, sleeps := [], cooldownApplied := true,
                outcome := .ok (toString message_id) }
          | none =>
              { attempts := 1, sleeps := [], cooldownApplied := false,
                outcome := .error "Failed to get message ID from Telegram response" }
      else if status = 429 then
        let retry_count := retry_count + 1
        if max_retries < retry_count then
          { attempts := 1, sleeps := [], cooldownApplied := false,
            outcome := .error ("Exceeded maximum retries for Telegram API. Last error: " ++ text) }
        else
          let wait_time := extractRetryAfter bodyParse.toOption retry_count
          let t := sendWithIdLoop rest retry_count
          { t with attempts := t.attempts + 1, sleeps := wait_time :: t.sleeps }
      else
        { attempts := 1, sleeps := [], cooldownApplied := false,
          outcome := .error ("Telegram API request failed: " ++ text) }

/-- send_telegram_notification_with_id, entered with retry_count = 0. -/
def sendTelegramNotificationWithId (responses : List TgResponse) : WithIdTrace :=
  sendWithIdLoop responses 0

/-- hours_interval (src/main.rs 996). -/
def hours_interval : Nat := 6

/-- check_interval = Duration::from_secs(hours_interval) (src/main.rs 997),
expressed in seconds: Duration::from_secs takes seconds, so the inter-cycle
sleep at line 1384 lasts this many seconds. -/
def check_interval_seconds : Nat := hours_interval

/-- The sendMessage request body built by send_telegram_notification
(src/main.rs 217-231): the base fields, then message_thread_id exactly
when topic_id is nonempty and differs from "1", then reply_markup when a
keyboard is supplied.  Key insertion order is preserved. -/
def sendMessageBody (chat_id message topic_id : String)
    (inline_keyboard : Option JsonValue) : List (String × JsonValue) :=
  let json_body := [("chat_id", JsonValue.str chat_id), ("text", JsonValue.str message),
    ("parse_mode", JsonValue.str "HTML"), ("disable_web_page_preview", JsonValue.bool true)]
  let json_body := if !topic_id.isEmpty && topic_id != "1" then
      json_body ++ [("message_thread_id", JsonValue.str topic_id)]
    else json_body
  match inline_keyboard with
  | some keyboard => json_body ++ [("reply_markup", keyboard)]
  | none => json_body

/-- The editMessageText request body built by update_telegram_message
(src/main.rs 658-669): message_thread_id is appended under the same
condition; there is no keyboard parameter. -/
def editMessageBody (chat_id message_id message topic_id : String) :
    List (String × JsonValue) :=
  let json_body := [("chat_id", JsonValue.str chat_id), ("message_id", JsonValue.str message_id),
    ("text", JsonValue.str message), ("parse_mode", JsonValue.str "HTML"),
    ("disable_web_page_preview", JsonValue.bool true)]
  if !topic_id.isEmpty && topic_id != "1" then
    json_body ++ [("message_thread_id", JsonValue.str topic_id)]
  else json_body

/-- The sendMessage request body built by send_telegram_notification_with_id
(src/main.rs 740-754), constructed exactly as in send_telegram_notification. -/
def sendWithIdBody (chat_id message topic_id : String)
    (inline_keyboard : Option JsonValue) : List (String × JsonValue) :=
  let json_body := [("chat_id", JsonValue.str chat_id), ("text", JsonValue.str message),
    ("parse_mode", JsonValue.str "HTML"), ("disable_web_page_preview", JsonValue.bool true)]
  let json_body := if !topic_id.isEmpty && topic_id != "1" then
      json_body ++ [("message_thread_id", JsonValue.str topic_id)]
    else json_body
  match inline_keyboard with
  | some keyboard => json_body ++ [("reply_markup", keyboard)]
  | none => json_body

/-- Whether a request body carries a field with the given key. -/
def hasField (fields : List (String × JsonValue)) (key : String) : Bool :=
  fields.any (fun p => p.1 == key)

/-- Substring test, modelling Rust str::contains with a string pattern
(src/main.rs 899). -/
def strContainsSubstr (haystack needle : String) : Bool :=
  decide (needle.toList <:+: haystack.toList)

/-- The literal history limit passed by was_message_sent_recently to
get_previous_messages (src/main.rs 876). -/
def dedupHistoryLimit : Nat := 100

/-- One scripted outcome of the per-message getMessage call inside
was_message_sent_recently (src/main.rs 880-904): a connection-level
failure (propagated by the question-mark operator), a non-2xx response
(silently skipped), or a 2xx response with the result of serde-parsing
its body (a parse failure propagates). -/
inductive MsgFetch where
  | transportErr (e : String)
  | httpFail (status : Nat) (text : String)
  | httpOk (bodyParse : Except String JsonValue)

/-- The scan of was_message_sent_recently over the fetched messages
(src/main.rs 879-907): each fetched 2xx body is parsed, result.text is
read as a string, and the scan returns true at the first text containing
the candidate; a transport or parse failure propagates; everything else
is skipped; exhausting the list returns false. -/
def scanMessages (message_text : String) : List MsgFetch → Except String Bool
  | [] => .ok false
  | fetched :: rest =>
    match fetched with
    | .transportErr e => .error e
    | .httpFail _ _ => scanMessages message_text rest
    | .httpOk (.error e) => .error e
    | .httpOk (.ok response_json) =>
      match (response_json.get "result").bind (fun r => r.get "text") with
      | some message =>
        match message.asStr with
        | some text =>
          if strContainsSubstr text message_text then .ok true
          else scanMessages message_text rest
        | none => scanMessages message_text rest
      | none => scanMessages message_text rest

/-- was_message_sent_recently (src/main.rs 868-908): fetch the identifiers
of the dedupHistoryLimit most recent messages (a lookup failure
propagates), then scan their fetched texts for the candidate. -/
def wasMessageSentRecently (getPrev : Nat → Except String (List String))
    (fetch : String → MsgFetch) (message_text : String) : Except String Bool :=
  match getPrev dedupHistoryLimit with
  | .error e => .error e
  | .ok previous_messages => scanMessages message_text (previous_messages.map fetch)

/-- A fetched message the scan passes over: a non-2xx getMessage response,
or a well-parsed body whose result.text is absent, not a string, or does
not contain the candidate. -/
def fetchSkips (fetched : MsgFetch) (message_text : String) : Bool :=
  match fetched with
  | .transportErr _ => false
  | .httpFail _ _ => true
  | .httpOk (.error _) => false
  | .httpOk (.ok response_json) =>
    match (response_json.get "result").bind (fun r => r.get "text") with
    | some message =>
      match message.asStr with
      | some text => !strContainsSubstr text message_text
      | none => true
    | none => true

/-- A fetched message at which the scan stops with true: a 2xx,
well-parsed body whose result.text string contains the candidate. -/
def fetchHit (fetched : MsgFetch) (message_text : String) : Bool :=
  match fetched with
  | .httpOk (.ok response_json) =>
    match (response_json.get "result").bind (fun r => r.get "text") with
    | some message =>
      match message.asStr with
      | some text => strContainsSubstr text message_text
      | none => false
    | none => false
  | _ => false

/-- FlightResult (src/main.rs 23-41). -/
structure FlightResult where
  origin : String
  destination : String
  origin_airport : String
  destination_airport : String
  price : Int
  airline : String
  flight_number : String
  departure_at : String
  return_at : Option String
  transfers : Int
  duration : Option Int
  duration_to : Option Int
  duration_back : Option Int
  return_transfers : Option Int
  link : String
  seats : Option Int
deriving DecidableEq

/-- FlightData (src/main.rs 15-21). -/
structure FlightData where
  success : Bool
  data : Option (List FlightResult)
  currency : Option String
  error : Option String
deriving DecidableEq

/-- SearchStatistics (src/main.rs 601-610). -/
structure SearchStatistics where
  total_dates_checked : Nat
  dates_with_flights : Nat
  dates_without_flights : Nat
  total_flights_found : Nat
  errors_encountered : Nat
  flight_dates : List (String × String)
deriving DecidableEq

/-- SearchStatistics::new, i.e. Default::default() (src/main.rs 612-615). -/
def SearchStatistics.new : SearchStatistics :=
  { total_dates_checked := 0, dates_with_flights := 0, dates_without_flights := 0,
    total_flights_found := 0, errors_encountered := 0, flight_dates := [] }

/-- The cycle-statistics invariant stated by the specification: dates
checked equals dates with results plus dates without results plus
errors. -/
def statsInvariant (s : SearchStatistics) : Prop :=
  s.total_dates_checked
    = s.dates_with_flights + s.dates_without_flights + s.errors_encountered

instance (s : SearchStatistics) : Decidable (statsInvariant s) := by
  unfold statsInvariant; infer_instance

/-- One scripted HTTP exchange of search_flights with the flight source. -/
inductive SearchHttpResult where
  | transportErr (e : String)
  | resp (status : Nat) (text : String) (parsed : Except String FlightData)

/-- search_flights response handling (src/main.rs 435-507): a non-2xx
status is an error carrying the status and body text; a 2xx body yields
its parsed FlightData (the direct serde parse with the manual fallback of
lines 452-505; the combined outcome is the scripted parse result, whose
own failure propagates as an error). -/
def searchFlights (r : SearchHttpResult) : Except String FlightData :=
  match r with
  | .transportErr e => .error e
  | .resp status text parsed =>
    if statusIsSuccess status then parsed
    else .error ("API request failed with status " ++ toString status ++ ": " ++ text)

/-- The parts of the runtime configuration the cycle loop consults on its
error path (src/main.rs 953, 991, 1289, 1312). -/
structure Config where
  enableTelegram : Bool
  hasStatusMessage : Bool

/-- The per-flight send loop of one date (src/main.rs 1127-1184): flights
are enumerated; from index 5 on, one summary message is deduplicated and
possibly sent, and the loop breaks; below 5, the flight's message is
deduplicated and possibly sent.  Every deduplication lookup or send
failure propagates (the question-mark operator in main). -/
def detailsLoop (flightDedup : Nat → Except String Bool)
    (flightSend : Nat → Except String Unit) (moreDedup : Except String Bool)
    (moreSend : Except String String) : Nat → List FlightResult → Except String Unit
  | _, [] => .ok ()
  | i, _flight :: restFlights =>
    if 5 ≤ i then
      match moreDedup with
      | .error e => .error e
      | .ok was_recent =>
        if !was_recent then
          match moreSend with
          | .error e => .error e
          | .ok _message_id => .ok ()
        else .ok ()
    else
      match flightDedup i with
      | .error e => .error e
      | .ok was_recent =>
        match (if !was_recent then flightSend i else .ok ()) with
        | .error e => .error e
        | .ok _ => detailsLoop flightDedup flightSend moreDedup moreSend (i + 1) restFlights

/-- The scripted environment of one date iteration of the main loop
(src/main.rs 1060-1342): the search outcome, the results of each
deduplication lookup and send that iteration may perform, and the results
of the error-notification and status-refresh calls of the error path.
The AirLabs enrichment is disabled (the AIRLABS_API_KEY-absent
configuration, under which the block at lines 1186-1265 is skipped). -/
structure DateScript where
  searchResult : Except String FlightData
  headlineDedup : Except String Bool
  headlineSend : Except String String
  flightDedup : Nat → Except String Bool
  flightSend : Nat → Except String Unit
  moreDedup : Except String Bool
  moreSend : Except String String
  errNotify : Except String Unit
  statusUpdate : Except String Unit

/-- One date iteration of the main loop (src/main.rs 1084-1338).  The
date counter is bumped first; a search failure increments the error count
and sends the error notification and status refresh, both of whose
failures are logged and discarded; success=false updates nothing further;
success with flights increments the with-flights counters, then the
headline deduplication lookup and send and the per-flight loop run, each
failure propagating; a suppressed headline increments the without-flights
counter (as does an absent or empty result list). -/
def processDate (cfg : Config) (stats : SearchStatistics) (formatted_date : String)
    (d : DateScript) : Except String SearchStatistics :=
  let stats := { stats with total_dates_checked := stats.total_dates_checked + 1 }
  match d.searchResult with
  | .ok flight_data =>
    if flight_data.success then
      match flight_data.data with
      | some flights =>
        let flight_count := flights.length
        if flight_count > 0 then
          let stats := { stats with
            dates_with_flights := stats.dates_with_flights + 1,
            total_flights_found := stats.total_flights_found + flight_count }
          match d.headlineDedup with
          | .error e => .error e
          | .ok was_recent =>
            if !was_recent then
              match d.headlineSend with
              | .error e => .error e
              | .ok message_id =>
                let stats := { stats with
                  flight_dates := stats.flight_dates ++ [(formatted_date, message_id)] }
                match detailsLoop d.flightDedup d.flightSend d.moreDedup d.moreSend 0 flights with
                | .error e => .error e
                | .ok _ => .ok stats
            else
              .ok { stats with dates_without_flights := stats.dates_without_flights + 1 }
        else
          .ok { stats with dates_without_flights := stats.dates_without_flights + 1 }
      | none => .ok { stats with dates_without_flights := stats.dates_without_flights + 1 }
    else
      .ok stats
  | .error _e =>
    let stats := { stats with errors_encountered := stats.errors_encountered + 1 }
    let _errNotifyOutcome := if cfg.enableTelegram then some d.errNotify else none
    let _statusUpdateOutcome :=
      if cfg.enableTelegram && cfg.hasStatusMessage then some d.statusUpdate else none
    .ok stats

/-- One full search cycle over the scripted dates, starting from freshly
reset statistics; a propagated error aborts the loop (and, in main, the
process). -/
def runCycle (cfg : Config) : SearchStatistics → List (String × DateScript) →
    Except String SearchStatistics
  | stats, [] => .ok stats
  | stats, (formatted_date, d) :: rest =>
    match processDate cfg stats formatted_date d with
    | .error e => .error e
    | .ok stats2 => runCycle cfg stats2 rest

/-- Whether the scripted search of a date failed. -/
def isSearchErr (d : DateScript) : Bool :=
  match d.searchResult with
  | .error _ => true
  | .ok _ => false

/-- Whether the headline deduplication lookup of a date reported a recent
duplicate. -/
def suppressedHeadline (d : DateScript) : Bool :=
  match d.headlineDedup with
  | .ok true => true
  | _ => false

/-- A date whose handling keeps the statistics balanced: the search either
fails, or reports success=true and, when flights are present, the
deduplication guard does not suppress the headline. -/
def goodDate (d : DateScript) : Bool :=
  match d.searchResult with
  | .error _ => true
  | .ok fd => fd.success && ((fd.data.getD []).isEmpty || !suppressedHeadline d)

/-- A sample flight record for concrete cycle runs. -/
def demoFlight : FlightResult :=
  { origin := "MOW", destination := "USK", origin_airport := "SVO",
    destination_airport := "USK", price := 12000, airline := "UT",
    flight_number := "455", departure_at := "2025-09-15T10:00:00+03:00",
    return_at := none, transfers := 0, duration := some 150, duration_to := some 150,
    duration_back := none, return_transfers := none,
    link := "/search/MOW1509USK1", seats := some 9 }

/-- A date whose search fails at the transport level, with a failing error
notification (whose failure the loop discards). -/
def searchErrScript : DateScript :=
  { searchResult := .error "API request failed with status 500: upstream down",
    headlineDedup := .ok false, headlineSend := .ok "7",
    flightDedup := fun _ => .ok false, flightSend := fun _ => .ok (),
    moreDedup := .ok false, moreSend := .ok "8",
    errNotify := .error "Telegram API request failed: bad request",
    statusUpdate := .ok () }

/-- A successful FlightData with one flight. -/
def demoFlightData : FlightData :=
  { success := true, data := some [demoFlight], currency := some "rub", error := none }

/-- A date with one fresh flight whose notifications all succeed. -/
def flightOkScript : DateScript :=
  { searchResult := .ok demoFlightData,
    headlineDedup := .ok false, headlineSend := .ok "42",
    flightDedup := fun _ => .ok false, flightSend := fun _ => .ok (),
    moreDedup := .ok false, moreSend := .ok "43",
    errNotify := .ok (), statusUpdate := .ok () }

/-- A FlightData carrying a top-level success=false. -/
def okFalseData : FlightData :=
  { success := false, data := none, currency := none, error := some "no data" }

/-- A date whose search returns a 2xx response whose body parses with
top-level success=false. -/
def successFalseScript : DateScript :=
  { searchResult := searchFlights (.resp 200 "raw body" (.ok okFalseData)),
    headlineDedup := .ok false, headlineSend := .ok "9",
    flightDedup := fun _ => .ok false, flightSend := fun _ => .ok (),
    moreDedup := .ok false, moreSend := .ok "10",
    errNotify := .ok (), statusUpdate := .ok () }

/-- A date with one flight whose headline is suppressed as a recent
duplicate by the deduplication guard. -/
def dupSuppressedScript : DateScript :=
  { searchResult := .ok demoFlightData,
    headlineDedup := .ok true, headlineSend := .ok "11",
    flightDedup := fun _ => .ok false, flightSend := fun _ => .ok (),
    moreDedup := .ok false, moreSend := .ok "12",
    errNotify := .ok (), statusUpdate := .ok () }

/-- A date with one flight whose headline deduplication lookup fails. -/
def dedupFailScript : DateScript :=
  { searchResult := .ok demoFlightData,
    headlineDedup := .error "history lookup failed",
    headlineSend := .ok "13", flightDedup := fun _ => .ok false,
    flightSend := fun _ => .ok (), moreDedup := .ok false, moreSend := .ok "14",
    errNotify := .ok (), statusUpdate := .ok () }

/-- The telegram-enabled configuration with a live status message. -/
def cfg0 : Config := { enableTelegram := true, hasStatusMessage := true }

/-- The scripted five-429s-then-success run used against claim C2. -/
def c2CexResponses : List TgResponse :=
  List.replicate 5 (TgResponse.resp 429 "Too Many Requests" (Except.error "not json")) ++
    [TgResponse.resp 200 "ok" (Except.error "unused")]

/-- A 429 body carrying parameters.retry_after = 3.5. -/
def c6Body : JsonValue :=
  JsonValue.obj [("ok", JsonValue.bool false),
    ("parameters", JsonValue.obj [("retry_after", JsonValue.num ((7 : ℚ) / 2))])]

/-- A fetched dedup message whose text does not contain the candidate. -/
def c8MissFetch : MsgFetch :=
  .httpOk (.ok (JsonValue.obj
    [("result", JsonValue.obj [("text", JsonValue.str "no matching text here")])]))

/-- A fetched dedup message whose text contains the candidate. -/
def c8HitFetch : MsgFetch :=
  .httpOk (.ok (JsonValue.obj
    [("result", JsonValue.obj [("text", JsonValue.str "found 3 flights today")])]))

/-- A fetch oracle: message "11" carries the candidate, others do not. -/
def c8Fetch : String → MsgFetch := fun i => if i == "11" then c8HitFetch else c8MissFetch

/-- A two-date demo cycle: a failed search, then a date with a fresh
flight. -/
def c1Demo : List (String × DateScript) :=
  [("2025-09-15", searchErrScript), ("2025-09-16", flightOkScript)]

/-- The statistics c1Demo ends with. -/
def c1DemoStats : SearchStatistics :=
  { total_dates_checked := 2, dates_with_flights := 1, dates_without_flights := 0,
    total_flights_found := 1, errors_encountered := 1,
    flight_dates := [("2025-09-16", "42")] }

/-- A two-date demo cycle in which every search fails. -/
def c3Demo : List (String × DateScript) :=
  [("2025-09-15", searchErrScript), ("2025-09-16", searchErrScript)]

/-- The statistics a one-date cycle over successFalseScript ends with. -/
def c1CexStatsA : SearchStatistics :=
  { total_dates_checked := 1, dates_with_flights := 0, dates_without_flights := 0,
    total_flights_found := 0, errors_encountered := 0, flight_dates := [] }

/-- The statistics a one-date cycle over dupSuppressedScript ends with. -/
def c1CexStatsB : SearchStatistics :=
  { total_dates_checked := 1, dates_with_flights := 1, dates_without_flights := 1,
    total_flights_found := 1, errors_encountered := 0, flight_dates := [] }

/-- C5: the claim says the orchestrator sleeps the configured 6-hour
polling interval between cycles.  The code builds the sleep with
Duration::from_secs(hours_interval), which is 6 seconds, not 6 hours
(21600 seconds), although the source comment at line 995 and the startup
and summary messages announce a 6-hour interval: the code contradicts its
own documentation. -/
theorem c5_polling_interval :
    check_interval_seconds = 6 ∧ check_interval_seconds ≠ hours_interval * 3600 := by
  decide

/-- The retry loop issues at most max_retries + 1 - retry_count HTTP
attempts from a counter value of at most max_retries. -/
theorem telegramDeliveryLoop_attempts_le (responses : List TgResponse) :
    ∀ retry_count, retry_count ≤ max_retries →
    (telegramDeliveryLoop responses retry_count).attempts ≤ max_retries + 1 - retry_count := by
  induction responses with
  | nil => intro rc h; simp [telegramDeliveryLoop]
  | cons r rest ih =>
    intro rc h
    cases r with
    | transportErr e => simp [telegramDeliveryLoop]; omega
    | resp status text bodyParse =>
      simp only [telegramDeliveryLoop]
      by_cases hs : statusIsSuccess status = true
      · simp [hs]; omega
      · simp only [hs, if_false, Bool.false_eq_true]
        by_cases h429 : status = 429
        · simp only [h429, if_true]
          by_cases hmax : max_retries < rc + 1
          · simp [hmax]; omega
          · simp only [hmax, if_false]
            have hrec := ih (rc + 1) (by omega)
            simp
            omega
        · simp [h429]; omega

/-- C2 (amended): the delivery loop performs at most max_retries + 1 = 6
HTTP attempts; after six consecutive rate-limit (429) responses the
seventh attempt is never made and the call fails with the
exhausted-retries outcome carrying the last (sixth) observed backend
error text.  (As stated, the claim fails: the sixth attempt is made — see
the counterexample.) -/
theorem c2_retry_bound :
    (∀ responses, (sendTelegramNotification responses).attempts ≤ max_retries + 1) ∧
    (∀ (t1 t2 t3 t4 t5 t6 : String) (b1 b2 b3 b4 b5 b6 : Except String JsonValue)
       (rest : List TgResponse),
      (telegramDeliveryLoop
        (.resp 429 t1 b1 :: .resp 429 t2 b2 :: .resp 429 t3 b3 :: .resp 429 t4 b4 ::
         .resp 429 t5 b5 :: .resp 429 t6 b6 :: rest) 0).outcome
        = .error ("Exceeded maximum retries for Telegram API. Last error: " ++ t6) ∧
      (telegramDeliveryLoop
        (.resp 429 t1 b1 :: .resp 429 t2 b2 :: .resp 429 t3 b3 :: .resp 429 t4 b4 ::
         .resp 429 t5 b5 :: .resp 429 t6 b6 :: rest) 0).attempts = 6) := by
  constructor
  · intro responses
    simpa [max_retries] using
      telegramDeliveryLoop_attempts_le responses 0 (Nat.zero_le _)
  · intro t1 t2 t3 t4 t5 t6 b1 b2 b3 b4 b5 b6 rest
    constructor <;> simp [telegramDeliveryLoop, statusIsSuccess, max_retries]

/-- C2 counterexample: after five consecutive 429 responses the sixth
attempt IS made — here it even succeeds, so no exhausted-retries outcome
occurs — refuting the claim that the sixth attempt never happens. -/
theorem c2_retry_bound_counterexample :
    (sendTelegramNotification c2CexResponses).attempts = 6 ∧
    (sendTelegramNotification c2CexResponses).outcome = Except.ok () := by
  constructor <;> rfl

/-- C6: when a 429 body parses and carries parameters.retry_after, the
loop sleeps exactly that (possibly fractional) value before the retry, in
preference to the exponential fallback. -/
theorem c6_retry_after_precedence (retry_count : Nat) (text : String) (j : JsonValue)
    (q : ℚ) (rest : List TgResponse)
    (hbody : bodyRetryAfter (some j) = some q)
    (hrc : retry_count + 1 ≤ max_retries) :
    (telegramDeliveryLoop (.resp 429 text (.ok j) :: rest) retry_count).sleeps.head?
      = some q := by
  have hnot : ¬ (max_retries < retry_count + 1) := by omega
  simp [telegramDeliveryLoop, statusIsSuccess, hnot, extractRetryAfter, hbody,
    Except.toOption]

/-- C6 witness: a 429 body with parameters.retry_after = 3.5 makes the
engine sleep exactly 3.5 seconds before retrying. -/
theorem c6_retry_after_precedence_witness :
    bodyRetryAfter (some c6Body) = some ((7 : ℚ) / 2) ∧ 0 + 1 ≤ max_retries ∧
    (telegramDeliveryLoop
        [.resp 429 "rate limited" (.ok c6Body), .resp 200 "" (.ok (JsonValue.obj []))]
        0).sleeps.head? = some ((7 : ℚ) / 2) :=
  ⟨rfl, by decide,
   c6_retry_after_precedence 0 "rate limited" c6Body ((7 : ℚ) / 2)
     [.resp 200 "" (.ok (JsonValue.obj []))] rfl (by decide)⟩

/-- C7: base_delay is 1 second and, when a 429 body carries no
retry_after (including an unparseable body), the wait slept before retry
attempt k = retry_count + 1 is base_delay * 2 ^ k seconds, the counter
having been incremented before the sleep. -/
theorem c7_backoff_fallback :
    initial_delay = 1 ∧
    ∀ (retry_count : Nat) (text : String) (bodyParse : Except String JsonValue)
      (rest : List TgResponse),
      bodyRetryAfter bodyParse.toOption = none →
      retry_count + 1 ≤ max_retries →
      (telegramDeliveryLoop (.resp 429 text bodyParse :: rest) retry_count).sleeps.head?
        = some ((initial_delay : ℚ) * 2 ^ (retry_count + 1)) := by
  constructor
  · rfl
  · intro rc text bp rest hnone hrc
    have hnot : ¬ (max_retries < rc + 1) := by omega
    have hle : rc + 1 ≤ 5 := by simpa [max_retries] using hrc
    have hlt : initial_delay * 2 ^ (rc + 1) < 2 ^ 64 := by
      have h2 : initial_delay * 2 ^ (rc + 1) = 2 ^ (rc + 1) := by simp [initial_delay]
      rw [h2]
      calc 2 ^ (rc + 1) ≤ 2 ^ 5 := Nat.pow_le_pow_right (by norm_num) hle
        _ < 2 ^ 64 := by norm_num
    have hfb : fallbackBackoff (rc + 1) = initial_delay * 2 ^ (rc + 1) :=
      Nat.mod_eq_of_lt hlt
    have hkey : (telegramDeliveryLoop (.resp 429 text bp :: rest) rc).sleeps
        = extractRetryAfter bp.toOption (rc + 1)
            :: (telegramDeliveryLoop rest (rc + 1)).sleeps := by
      simp [telegramDeliveryLoop, statusIsSuccess, hnot]
    rw [hkey]
    simp only [List.head?_cons, extractRetryAfter, hnone, hfb]
    push_cast
    ring_nf

/-- C7 witness: entering the loop with retry_count = 1, a 429 with an
unparseable body makes the engine sleep 1 * 2 ^ 2 = 4 seconds. -/
theorem c7_backoff_fallback_witness :
    bodyRetryAfter (Except.toOption (Except.error "bad json" : Except String JsonValue))
        = none ∧
    1 + 1 ≤ max_retries ∧
    (telegramDeliveryLoop [.resp 429 "limited" (.error "bad json")] 1).sleeps.head?
      = some ((initial_delay : ℚ) * 2 ^ 2) :=
  ⟨by decide, by decide,
   c7_backoff_fallback.2 1 "limited" (.error "bad json") [] (by decide) (by decide)⟩

/-- C10: when the send-and-capture-id variant receives an HTTP-success
response whose body does not parse as JSON, or parses but lacks an
integral result.message_id, the call returns the corresponding failure
outcome even though the message was delivered, and the 1-second
post-success cooldown is skipped on that path. -/
theorem c10_with_id_parse_failure (status : Nat) (text : String) (rest : List TgResponse)
    (hs : statusIsSuccess status = true) :
    (∀ e, (sendWithIdLoop (.resp status text (.error e) :: rest) 0).outcome = .error e ∧
      (sendWithIdLoop (.resp status text (.error e) :: rest) 0).cooldownApplied = false) ∧
    (∀ j, ((JsonValue.get j "result").bind (fun result => result.get "message_id")).bind
        JsonValue.asI64 = none →
      (sendWithIdLoop (.resp status text (.ok j) :: rest) 0).outcome
          = .error "Failed to get message ID from Telegram response" ∧
      (sendWithIdLoop (.resp status text (.ok j) :: rest) 0).cooldownApplied = false) := by
  constructor
  · intro e
    constructor <;> simp [sendWithIdLoop, hs]
  · intro j hj
    constructor <;> simp [sendWithIdLoop, hs, hj]

/-- C10 witness: a 200 response with an unparseable body, and a 200
response whose parsed body has no result.message_id, both fail without
the cooldown. -/
theorem c10_with_id_parse_failure_witness :
    statusIsSuccess 200 = true ∧
    (sendWithIdLoop [.resp 200 "body" (.error "expected value at line 1 column 1")] 0).outcome
      = .error "expected value at line 1 column 1" ∧
    (sendWithIdLoop
        [.resp 200 "body" (.error "expected value at line 1 column 1")] 0).cooldownApplied
      = false ∧
    ((JsonValue.get (JsonValue.obj [("ok", JsonValue.bool true)]) "result").bind
        (fun result => result.get "message_id")).bind JsonValue.asI64 = none ∧
    (sendWithIdLoop [.resp 200 "ok-body" (.ok (JsonValue.obj [("ok", JsonValue.bool true)]))]
        0).outcome = .error "Failed to get message ID from Telegram response" ∧
    (sendWithIdLoop [.resp 200 "ok-body" (.ok (JsonValue.obj [("ok", JsonValue.bool true)]))]
        0).cooldownApplied = false :=
  ⟨by decide,
   ((c10_with_id_parse_failure 200 "body" [] (by decide)).1
      "expected value at line 1 column 1").1,
   ((c10_with_id_parse_failure 200 "body" [] (by decide)).1
      "expected value at line 1 column 1").2,
   by decide,
   ((c10_with_id_parse_failure 200 "ok-body" [] (by decide)).2
      (JsonValue.obj [("ok", JsonValue.bool true)]) (by decide)).1,
   ((c10_with_id_parse_failure 200 "ok-body" [] (by decide)).2
      (JsonValue.obj [("ok", JsonValue.bool true)]) (by decide)).2⟩

/-- C9: each of the three request bodies carries message_thread_id exactly
when the configured topic id is nonempty and differs from the default
sentinel "1". -/
theorem c9_thread_id_field (chat_id message message_id topic_id : String)
    (inline_keyboard : Option JsonValue) :
    hasField (sendMessageBody chat_id message topic_id inline_keyboard) "message_thread_id"
      = (!topic_id.isEmpty && topic_id != "1") ∧
    hasField (editMessageBody chat_id message_id message topic_id) "message_thread_id"
      = (!topic_id.isEmpty && topic_id != "1") ∧
    hasField (sendWithIdBody chat_id message topic_id inline_keyboard) "message_thread_id"
      = (!topic_id.isEmpty && topic_id != "1") := by
  have h1 : ("chat_id" == "message_thread_id") = false := by decide
  have h2 : ("text" == "message_thread_id") = false := by decide
  have h3 : ("parse_mode" == "message_thread_id") = false := by decide
  have h4 : ("disable_web_page_preview" == "message_thread_id") = false := by decide
  have h5 : ("message_thread_id" == "message_thread_id") = true := by decide
  have h6 : ("reply_markup" == "message_thread_id") = false := by decide
  have h7 : ("message_id" == "message_thread_id") = false := by decide
  refine ⟨?_, ?_, ?_⟩
  · cases inline_keyboard <;> by_cases he : topic_id.isEmpty = true <;>
      by_cases hone : topic_id = "1" <;>
      simp_all [sendMessageBody, hasField]
  · by_cases he : topic_id.isEmpty = true <;> by_cases hone : topic_id = "1" <;>
      simp_all [editMessageBody, hasField]
  · cases inline_keyboard <;> by_cases he : topic_id.isEmpty = true <;>
      by_cases hone : topic_id = "1" <;>
      simp_all [sendWithIdBody, hasField]

/-- The scan passes over a fetched message it skips. -/
theorem scanMessages_skip (fetched : MsgFetch) (message_text : String)
    (rest : List MsgFetch) (h : fetchSkips fetched message_text = true) :
    scanMessages message_text (fetched :: rest) = scanMessages message_text rest := by
  cases fetched with
  | transportErr e => simp [fetchSkips] at h
  | httpFail s t => rfl
  | httpOk bodyParse =>
    cases bodyParse with
    | error e => simp [fetchSkips] at h
    | ok j =>
      rcases hres : (j.get "result").bind (fun r => r.get "text") with _ | m
      · simp [scanMessages, hres]
      · rcases hstr : m.asStr with _ | t
        · simp [scanMessages, hres, hstr]
        · simp only [fetchSkips, hres, hstr] at h
          have hc : strContainsSubstr t message_text = false := by
            revert h; cases strContainsSubstr t message_text <;> simp
          simp [scanMessages, hres, hstr, hc]

/-- The scan stops with true at a fetched message it hits. -/
theorem scanMessages_hit (fetched : MsgFetch) (message_text : String)
    (rest : List MsgFetch) (h : fetchHit fetched message_text = true) :
    scanMessages message_text (fetched :: rest) = .ok true := by
  cases fetched with
  | transportErr e => simp [fetchHit] at h
  | httpFail s t => simp [fetchHit] at h
  | httpOk bodyParse =>
    cases bodyParse with
    | error e => simp [fetchHit] at h
    | ok j =>
      rcases hres : (j.get "result").bind (fun r => r.get "text") with _ | m
      · simp [fetchHit, hres] at h
      · rcases hstr : m.asStr with _ | t
        · simp [fetchHit, hres, hstr] at h
        · simp only [fetchHit, hres, hstr] at h
          simp [scanMessages, hres, hstr, h]

/-- The scan of a list it entirely skips returns false. -/
theorem scanMessages_none (message_text : String) :
    ∀ msgs : List MsgFetch, (∀ f ∈ msgs, fetchSkips f message_text = true) →
    scanMessages message_text msgs = .ok false := by
  intro msgs
  induction msgs with
  | nil => intro _; rfl
  | cons f rest ih =>
    intro h
    rw [scanMessages_skip f message_text rest (h f (List.mem_cons_self _ _))]
    exact ih (fun g hg => h g (List.mem_cons_of_mem _ hg))

/-- C8: the deduplication guard requests exactly the 100 most recent
message identifiers and consults its history source only at that limit;
the scan returns true at the first fetched text containing the candidate,
regardless of every later identifier and fetch outcome (short-circuit);
it returns false when every fetched message is passed over, and in
particular on an empty history. -/
theorem c8_dedup_scan :
    dedupHistoryLimit = 100 ∧
    (∀ (g1 g2 : Nat → Except String (List String)) (fetch : String → MsgFetch)
       (mt : String), g1 dedupHistoryLimit = g2 dedupHistoryLimit →
      wasMessageSentRecently g1 fetch mt = wasMessageSentRecently g2 fetch mt) ∧
    (∀ (pre : List String) (hitId : String) (rest : List String)
       (fetch : String → MsgFetch) (mt : String),
      (∀ i ∈ pre, fetchSkips (fetch i) mt = true) →
      fetchHit (fetch hitId) mt = true →
      wasMessageSentRecently (fun _ => .ok (pre ++ hitId :: rest)) fetch mt = .ok true) ∧
    (∀ (ids : List String) (fetch : String → MsgFetch) (mt : String),
      (∀ i ∈ ids, fetchSkips (fetch i) mt = true) →
      wasMessageSentRecently (fun _ => .ok ids) fetch mt = .ok false) ∧
    (∀ (fetch : String → MsgFetch) (mt : String),
      wasMessageSentRecently (fun _ => .ok []) fetch mt = .ok false) := by
  refine ⟨rfl, ?_, ?_, ?_, ?_⟩
  · intro g1 g2 fetch mt hg
    unfold wasMessageSentRecently
    rw [hg]
  · intro pre hitId rest fetch mt hpre hhit
    have main : ∀ p : List String, (∀ i ∈ p, fetchSkips (fetch i) mt = true) →
        scanMessages mt (p.map fetch ++ fetch hitId :: rest.map fetch) = .ok true := by
      intro p
      induction p with
      | nil =>
        intro _
        simpa using scanMessages_hit (fetch hitId) mt (rest.map fetch) hhit
      | cons a as ih =>
        intro hp
        simp only [List.map_cons, List.cons_append]
        rw [scanMessages_skip _ _ _ (hp a (List.mem_cons_self _ _))]
        exact ih (fun i hi => hp i (List.mem_cons_of_mem _ hi))
    have := main pre hpre
    simpa [wasMessageSentRecently, List.map_append] using this
  · intro ids fetch mt hall
    have : ∀ f ∈ ids.map fetch, fetchSkips f mt = true := by
      intro f hf
      rcases List.mem_map.mp hf with ⟨i, hi, hfi⟩
      rw [← hfi]
      exact hall i hi
    simpa [wasMessageSentRecently] using scanMessages_none mt (ids.map fetch) this
  · intro fetch mt
    rfl

/-- C8 witness: with history ["10", "11", "12"] whose second message
contains the candidate, the guard returns true; with history ["10"] whose
only message does not, it returns false. -/
theorem c8_dedup_scan_witness :
    (∀ i ∈ ["10"], fetchSkips (c8Fetch i) "3 flights" = true) ∧
    fetchHit (c8Fetch "11") "3 flights" = true ∧
    wasMessageSentRecently (fun _ => .ok ["10", "11", "12"]) c8Fetch "3 flights"
      = .ok true ∧
    wasMessageSentRecently (fun _ => .ok ["10"]) c8Fetch "3 flights" = .ok false :=
  ⟨by decide, by decide,
   c8_dedup_scan.2.2.1 ["10"] "11" ["12"] c8Fetch "3 flights" (by decide) (by decide),
   c8_dedup_scan.2.2.2.1 ["10"] c8Fetch "3 flights" (by decide)⟩

/-- One good date preserves the statistics invariant. -/
theorem processDate_good_inv (cfg : Config) (stats : SearchStatistics) (dt : String)
    (d : DateScript) (s2 : SearchStatistics)
    (h : processDate cfg stats dt d = .ok s2) (hg : goodDate d = true)
    (hinv : statsInvariant stats) : statsInvariant s2 := by
  obtain ⟨c, w, wo, t, er, fds⟩ := stats
  unfold statsInvariant at hinv ⊢
  simp only at hinv
  simp only [processDate] at h
  split at h
  case h_2 e heq =>
    injection h with h
    rw [← h]
    simp
    omega
  case h_1 flight_data heq =>
    rw [goodDate] at hg
    rw [heq] at hg
    by_cases hsucc : flight_data.success = true
    · rw [if_pos hsucc] at h
      rcases hdata : flight_data.data with _ | flights
      · rw [hdata] at h
        injection h with h
        rw [← h]
        simp
        omega
      · rw [hdata] at h
        simp only at h
        by_cases hlen : flights.length > 0
        · rw [if_pos hlen] at h
          rcases hded : d.headlineDedup with e | was_recent
          · rw [hded] at h
            exact absurd h (by simp)
          · rw [hded] at h
            rcases was_recent with _ | _
            · simp only [Bool.not_false, if_pos rfl] at h
              rcases hsend : d.headlineSend with e | mid
              · rw [hsend] at h
                exact absurd h (by simp)
              · rw [hsend] at h
                rcases hdet : detailsLoop d.flightDedup d.flightSend d.moreDedup d.moreSend 0
                    flights with e | u
                · rw [hdet] at h
                  exact absurd h (by simp)
                · rw [hdet] at h
                  injection h with h
                  rw [← h]
                  simp
                  omega
            · simp [suppressedHeadline, hded, hsucc, hdata] at hg
              rcases flights with _ | ⟨f, fs⟩
              · simp at hlen
              · simp [List.isEmpty] at hg
        · rw [if_neg hlen] at h
          injection h with h
          rw [← h]
          simp
          omega
    · simp [hsucc] at hg

/-- A cycle of good dates preserves the statistics invariant. -/
theorem runCycle_good_inv (scripts : List (String × DateScript)) :
    ∀ (cfg : Config) (stats s2 : SearchStatistics),
    runCycle cfg stats scripts = .ok s2 →
    (∀ x ∈ scripts, goodDate x.2 = true) →
    statsInvariant stats → statsInvariant s2 := by
  induction scripts with
  | nil =>
    intro cfg stats s2 h _ hinv
    unfold runCycle at h
    injection h with h
    rwa [← h]
  | cons x rest ih =>
    intro cfg stats s2 h hg hinv
    obtain ⟨dt, d⟩ := x
    unfold runCycle at h
    split at h
    · exact absurd h (by simp)
    case h_2 stats2 hpd =>
      exact ih cfg stats2 s2 h (fun y hy => hg y (List.mem_cons_of_mem _ hy))
        (processDate_good_inv cfg stats dt d stats2 hpd
          (hg (dt, d) (List.mem_cons_self _ _)) hinv)

/-- C1 (amended): for every completed cycle in which no per-date search
reports success=false and no flights-found date has its headline
suppressed as a recent duplicate, the statistics satisfy
checked = withFlights + withoutFlights + errors.  (As stated, the claim
fails: a success=false date increments only the checked counter, and a
duplicate-suppressed flights date increments both the with-flights and
the without-flights counters — see the counterexample.) -/
theorem c1_cycle_invariant (cfg : Config) (scripts : List (String × DateScript))
    (s2 : SearchStatistics)
    (h : runCycle cfg SearchStatistics.new scripts = .ok s2)
    (hg : ∀ x ∈ scripts, goodDate x.2 = true) : statsInvariant s2 :=
  runCycle_good_inv scripts cfg SearchStatistics.new s2 h hg (by decide)

/-- C1 witness: a cycle of one failed search and one fresh-flight date
completes with balanced statistics 2 = 1 + 0 + 1. -/
theorem c1_cycle_invariant_witness :
    runCycle cfg0 SearchStatistics.new c1Demo = .ok c1DemoStats ∧
    (∀ x ∈ c1Demo, goodDate x.2 = true) ∧ statsInvariant c1DemoStats :=
  ⟨rfl, by decide, c1_cycle_invariant cfg0 c1Demo c1DemoStats rfl (by decide)⟩

/-- C1 counterexample: a success=false date yields checked = 1 with all
three buckets zero, and a duplicate-suppressed flights date yields
checked = 1 against with + without + errors = 2; both violate the claimed
equality. -/
theorem c1_cycle_invariant_counterexample :
    (runCycle cfg0 SearchStatistics.new [("2025-09-15", successFalseScript)]
        = .ok c1CexStatsA ∧ ¬ statsInvariant c1CexStatsA) ∧
    (runCycle cfg0 SearchStatistics.new [("2025-09-15", dupSuppressedScript)]
        = .ok c1CexStatsB ∧ ¬ statsInvariant c1CexStatsB) :=
  ⟨⟨rfl, by decide⟩, ⟨rfl, by decide⟩⟩

/-- A cycle in which every search fails completes, counting every date as
checked and errored, whatever the error-notification and status-refresh
results are. -/
theorem runCycle_searchErr (scripts : List (String × DateScript)) :
    ∀ (cfg : Config) (stats : SearchStatistics),
    (∀ x ∈ scripts, isSearchErr x.2 = true) →
    runCycle cfg stats scripts = .ok { stats with
      total_dates_checked := stats.total_dates_checked + scripts.length,
      errors_encountered := stats.errors_encountered + scripts.length } := by
  induction scripts with
  | nil => intro cfg stats _; rfl
  | cons x xs ih =>
    intro cfg stats h
    obtain ⟨dt, d⟩ := x
    have hx : isSearchErr d = true := h (dt, d) (List.mem_cons_self _ _)
    rcases hsr : d.searchResult with e | fd
    · unfold runCycle
      have hpd : processDate cfg stats dt d = .ok { stats with
          total_dates_checked := stats.total_dates_checked + 1,
          errors_encountered := stats.errors_encountered + 1 } := by
        simp only [processDate]
        rw [hsr]
      rw [hpd]
      have hrec := ih cfg { stats with
          total_dates_checked := stats.total_dates_checked + 1,
          errors_encountered := stats.errors_encountered + 1 }
        (fun y hy => h y (List.mem_cons_of_mem _ hy))
      dsimp only
      rw [hrec]
      simp only [List.length_cons, Except.ok.injEq, SearchStatistics.mk.injEq]
      exact ⟨by omega, trivial, trivial, trivial, by omega, trivial⟩
    · simp [isSearchErr, hsr] at hx

/-- C3 (amended): a per-date FlightSource failure never terminates the
loop — a cycle in which every search fails (whatever the error
notification and status refresh do, including failing) completes with
errors = checked = number of dates.  (As stated, the claim fails: a
deduplication history-lookup failure or a found-flights notification
delivery failure propagates out of the loop and terminates the process —
see the counterexample.) -/
theorem c3_error_resilience (cfg : Config) (scripts : List (String × DateScript))
    (h : ∀ x ∈ scripts, isSearchErr x.2 = true) :
    runCycle cfg SearchStatistics.new scripts = .ok
      { total_dates_checked := scripts.length, dates_with_flights := 0,
        dates_without_flights := 0, total_flights_found := 0,
        errors_encountered := scripts.length, flight_dates := [] } := by
  have := runCycle_searchErr scripts cfg SearchStatistics.new h
  simpa [SearchStatistics.new] using this

/-- C3 witness: a two-date cycle of failed searches — one with a failing
error notification — completes with checked = errors = 2. -/
theorem c3_error_resilience_witness :
    (∀ x ∈ c3Demo, isSearchErr x.2 = true) ∧
    runCycle cfg0 SearchStatistics.new c3Demo = .ok
      { total_dates_checked := 2, dates_with_flights := 0, dates_without_flights := 0,
        total_flights_found := 0, errors_encountered := 2, flight_dates := [] } :=
  ⟨by decide, by simpa [c3Demo] using c3_error_resilience cfg0 c3Demo (by decide)⟩

/-- C3 counterexample: a deduplication history-lookup failure on the
first date propagates out of the cycle (terminating the process) instead
of continuing with the second date. -/
theorem c3_error_resilience_counterexample :
    runCycle cfg0 SearchStatistics.new
      [("2025-09-15", dedupFailScript), ("2025-09-16", searchErrScript)]
      = .error "history lookup failed" := rfl

/-- C4 (amended): a non-2xx transport response is an error of
search_flights, which the loop counts as a per-date error; but a 2xx
response with top-level success=false is NOT treated the same way: the
date iteration returns with only the checked counter incremented — no
error is counted and nothing is sent — although processing does continue
with the next date.  (As stated, the claim fails — see the
counterexample.) -/
theorem c4_success_false :
    (∀ (status : Nat) (text : String) (parsed : Except String FlightData),
      statusIsSuccess status = false →
      searchFlights (.resp status text parsed)
        = .error ("API request failed with status " ++ toString status ++ ": " ++ text)) ∧
    (∀ (cfg : Config) (stats : SearchStatistics) (dt : String) (d : DateScript)
       (fd : FlightData),
      d.searchResult = .ok fd → fd.success = false →
      processDate cfg stats dt d
        = .ok { stats with total_dates_checked := stats.total_dates_checked + 1 }) := by
  constructor
  · intro status text parsed hns
    simp [searchFlights, hns]
  · intro cfg stats dt d fd hsr hfalse
    simp only [processDate]
    rw [hsr]
    simp [hfalse]

/-- C4 witness: a 500 response is an error; a 200 response whose body has
success=false leaves every counter but checked untouched. -/
theorem c4_success_false_witness :
    statusIsSuccess 500 = false ∧
    searchFlights (.resp 500 "upstream down" (.error "unused"))
      = .error ("API request failed with status " ++ toString 500 ++ ": " ++ "upstream down") ∧
    successFalseScript.searchResult = .ok okFalseData ∧ okFalseData.success = false ∧
    processDate cfg0 SearchStatistics.new "2025-09-15" successFalseScript
      = .ok { SearchStatistics.new with
          total_dates_checked := SearchStatistics.new.total_dates_checked + 1 } :=
  ⟨by decide, c4_success_false.1 500 "upstream down" (.error "unused") (by decide),
   by decide, by decide,
   c4_success_false.2 cfg0 SearchStatistics.new "2025-09-15" successFalseScript okFalseData
     (by decide) (by decide)⟩

/-- C4 counterexample: over a success=false date and a transport-error
date, the error count ends at 1 (only the transport failure), not the 2
the claim predicts; processing did continue through both dates. -/
theorem c4_success_false_counterexample :
    (runCycle cfg0 SearchStatistics.new
        [("2025-09-15", successFalseScript), ("2025-09-16", searchErrScript)]).map
      (fun s => (s.total_dates_checked, s.errors_encountered)) = .ok (2, 1) := rfl
